import Mathlib

/-!
Shallow embedding of the multi-signal voicemail classifier
(`track1/app/voicemail_detector.py`) and proofs about it.

Numeric confidences are modelled as rationals (`ℚ`); Python dictionaries
are modelled as association lists over a small dynamic value type `Val`;
`datetime.utcnow()` is modelled as an opaque clock value (`ℕ`) threaded
into each extractor.  Python regular-expression search is modelled by an
executable Brzozowski-derivative matcher over the exact pattern ASTs.
-/

namespace VoicemailDetection

/-- Dynamic value type standing for the Python values stored in the
loosely typed dictionaries (`details`, `metadata`). -/
inductive Val where
  | vNone : Val
  | vBool : Bool → Val
  | vNum : ℚ → Val
  | vStr : String → Val
  | vList : List Val → Val

/-- Python truthiness restricted to the value shapes this code stores. -/
def Val.truthy : Val → Bool
  | .vNone => false
  | .vBool b => b
  | .vNum q => q != 0
  | .vStr s => s != ""
  | .vList l => !l.isEmpty

/-- Numeric reading of a value (Python treats `bool` as `int`; a string
here would raise in Python and never occurs on the interpreted keys). -/
def Val.toNum : Val → ℚ
  | .vNone => 0
  | .vBool b => if b then 1 else 0
  | .vNum q => q
  | .vStr _ => 0
  | .vList _ => 0

/-- A Python dict, modelled as an association list in insertion order. -/
abbrev Dict := List (String × Val)

/-- `d.get(k)` / `d[k]` lookup. -/
def dictGet (d : Dict) (k : String) : Option Val :=
  (d.find? (fun p => p.1 == k)).map Prod.snd

/-- Truthiness of `d.get(k)` (missing key gives `None`, which is falsy). -/
def dictTruthy (d : Dict) (k : String) : Bool :=
  match dictGet d k with
  | some v => v.truthy
  | none => false

/-- `d.get(k, default)` read as a number. -/
def dictGetNum (d : Dict) (k : String) (default : ℚ) : ℚ :=
  match dictGet d k with
  | some v => v.toNum
  | none => default

/-- `d[k] = v` on a Python dict: replace in place if the key exists,
otherwise append, preserving insertion order. -/
def dictSet (d : Dict) (k : String) (v : Val) : Dict :=
  if d.any (fun p => p.1 == k) then
    d.map (fun p => if p.1 == k then (k, v) else p)
  else
    d ++ [(k, v)]

/-- `{**base, **upd}`-style merge used when building result metadata. -/
def dictMerge (base upd : Dict) : Dict :=
  upd.foldl (fun acc p => dictSet acc p.1 p.2) base

/- ### String helpers (Python `str.lower`, `in`, `" ".join`) -/

/-- `str.lower()`. -/
def strLower (s : String) : String := ⟨s.data.map Char.toLower⟩

/-- `a.isPrefixOf b` on character lists. -/
def startsWithL : List Char → List Char → Bool
  | [], _ => true
  | _ :: _, [] => false
  | a :: as, b :: bs => a == b && startsWithL as bs

/-- Python `needle in hay` substring containment on character lists. -/
def containsSub (needle : List Char) : List Char → Bool
  | [] => startsWithL needle []
  | c :: rest => startsWithL needle (c :: rest) || containsSub needle rest

/-- Python `needle in hay` on strings. -/
def strContains (hay needle : String) : Bool :=
  containsSub needle.data hay.data

/-- Python `" ".join(l)`. -/
def joinSpace : List String → String
  | [] => ""
  | [s] => s
  | s :: rest => s ++ " " ++ joinSpace rest

/-- The apostrophe character (several keyword phrases contain it). -/
def apos : String := String.singleton (Char.ofNat 39)

/- ### Regular expressions (the exact patterns used by the keyword
extractor), with an executable Brzozowski-derivative matcher. -/

/-- Regular-expression syntax: empty language, empty word, a character
class, alternation, concatenation, Kleene star. -/
inductive RE where
  | nul : RE
  | eps : RE
  | cls : (Char → Bool) → RE
  | alt : RE → RE → RE
  | seq : RE → RE → RE
  | star : RE → RE

/-- Does the regex accept the empty word? -/
def RE.nullable : RE → Bool
  | .nul => false
  | .eps => true
  | .cls _ => false
  | .alt a b => a.nullable || b.nullable
  | .seq a b => a.nullable && b.nullable
  | .star _ => true

/-- Brzozowski derivative with respect to a character. -/
def RE.deriv : RE → Char → RE
  | .nul, _ => .nul
  | .eps, _ => .nul
  | .cls p, c => if p c then .eps else .nul
  | .alt a b, c => .alt (a.deriv c) (b.deriv c)
  | .seq a b, c =>
      if a.nullable then .alt (.seq (a.deriv c) b) (b.deriv c)
      else .seq (a.deriv c) b
  | .star a, c => .seq (a.deriv c) (.star a)

/-- Full-string match. -/
def RE.matches : RE → List Char → Bool
  | r, [] => r.nullable
  | r, c :: cs => (r.deriv c).matches cs

/-- Any character (regex `.` with DOTALL irrelevance here). -/
def RE.anyChar : RE := .cls (fun _ => true)

/-- `re.search`: the pattern matches somewhere inside the string. -/
def reSearch (r : RE) (s : String) : Bool :=
  RE.matches (.seq (.star RE.anyChar) (.seq r (.star RE.anyChar))) s.data

/-- A single literal character, case-insensitively (`re.IGNORECASE`). -/
def litCI (c : Char) : RE := .cls (fun d => d.toLower == c.toLower)

/-- A literal string, case-insensitively. -/
def reStr (s : String) : RE :=
  s.data.foldr (fun c r => RE.seq (litCI c) r) RE.eps

/-- `\s` character class (Python ASCII whitespace). -/
def wspChar : RE :=
  .cls (fun c => c == ' ' || c == '\t' || c == '\n' ||
    c == '\r' || c == '\x0b' || c == '\x0c')

/-- `\d` character class. -/
def digitChar : RE := .cls (fun c => '0' ≤ c && c ≤ '9')

/-- `r+`. -/
def rePlus (r : RE) : RE := .seq r (.star r)

/-- `r?`. -/
def reOpt (r : RE) : RE := .alt r .eps

/-- `\s+`. -/
def reWS : RE := rePlus wspChar

/-- Python `min(a, b)` on rationals (first argument wins ties). -/
def pyMin (a b : ℚ) : ℚ := if a ≤ b then a else b

/-- Python `max(a, b)` on rationals (first argument wins ties). -/
def pyMax (a b : ℚ) : ℚ := if b ≤ a then a else b

/- ### Pattern library (`VoicemailPatterns`) -/

namespace VoicemailPatterns

/-- `VoicemailPatterns.VOICEMAIL_KEYWORDS`: literal lowercase phrases. -/
def VOICEMAIL_KEYWORDS : List String := [
  "leave a message",
  "leave your message",
  "at the beep",
  "after the beep",
  "after the tone",
  "at the tone",
  "please record your message",
  "record your message",
  "unable to answer",
  "can" ++ apos ++ "t come to the phone",
  "cannot come to the phone",
  "not available",
  "away from my phone",
  "away from the phone",
  "can" ++ apos ++ "t take your call",
  "cannot take your call",
  "you have reached the voicemail",
  "you" ++ apos ++ "ve reached the voicemail",
  "you have reached",
  "you" ++ apos ++ "ve reached",
  "the person you are calling",
  "the person you have called",
  "the subscriber you have dialed",
  "the number you have dialed",
  "the customer you are calling",
  "mailbox is full",
  "voicemail box",
  "voice mailbox",
  "to leave a callback number",
  "if you" ++ apos ++ "d like to leave a message",
  "if you would like to leave a message",
  "out of the office",
  "out of office",
  "business hours",
  "office hours",
  "press pound",
  "press star",
  "press 1",
  "press 2"]

/-- `VoicemailPatterns.HUMAN_INDICATORS`. -/
def HUMAN_INDICATORS : List String := [
  "hello",
  "hi there",
  "good morning",
  "good afternoon",
  "good evening",
  "how can i help",
  "how may i help",
  "speaking",
  "this is",
  "yes",
  "yeah"]

/-- Regex `leave\s+(?:a\s+|your\s+)?message`. -/
def reLeaveMessage : RE :=
  .seq (reStr "leave") (.seq reWS
    (.seq (reOpt (.alt (.seq (reStr "a") reWS) (.seq (reStr "your") reWS)))
      (reStr "message")))

/-- Regex `after\s+the\s+(?:beep|tone)`. -/
def reAfterThe : RE :=
  .seq (reStr "after") (.seq reWS (.seq (reStr "the")
    (.seq reWS (.alt (reStr "beep") (reStr "tone")))))

/-- Regex `at\s+the\s+(?:beep|tone)`. -/
def reAtThe : RE :=
  .seq (reStr "at") (.seq reWS (.seq (reStr "the")
    (.seq reWS (.alt (reStr "beep") (reStr "tone")))))

/-- Regex `(?:un)?able\s+to\s+(?:answer|take)`. -/
def reAbleTo : RE :=
  .seq (reOpt (reStr "un")) (.seq (reStr "able") (.seq reWS
    (.seq (reStr "to") (.seq reWS (.alt (reStr "answer") (reStr "take"))))))

/-- Regex `not\s+available`. -/
def reNotAvailable : RE :=
  .seq (reStr "not") (.seq reWS (reStr "available"))

/-- Regex `can'?t\s+(?:come\s+to|take)`. -/
def reCantComeTake : RE :=
  .seq (reStr "can") (.seq (reOpt (litCI (Char.ofNat 39)))
    (.seq (reStr "t") (.seq reWS
      (.alt (.seq (reStr "come") (.seq reWS (reStr "to"))) (reStr "take")))))

/-- Regex `you'?ve?\s+reached`. -/
def reYouveReached : RE :=
  .seq (reStr "you") (.seq (reOpt (litCI (Char.ofNat 39)))
    (.seq (reStr "v") (.seq (reOpt (litCI 'e'))
      (.seq reWS (reStr "reached")))))

/-- Regex `voice\s*mail`. -/
def reVoiceMail : RE :=
  .seq (reStr "voice") (.seq (.star wspChar) (reStr "mail"))

/-- Regex `mailbox`. -/
def reMailbox : RE := reStr "mailbox"

/-- Regex `out\s+of\s+(?:the\s+)?office`. -/
def reOutOfOffice : RE :=
  .seq (reStr "out") (.seq reWS (.seq (reStr "of") (.seq reWS
    (.seq (reOpt (.seq (reStr "the") reWS)) (reStr "office")))))

/-- Regex `business\s+hours`. -/
def reBusinessHours : RE :=
  .seq (reStr "business") (.seq reWS (reStr "hours"))

/-- Regex `press\s+\d+`. -/
def rePressDigit : RE :=
  .seq (reStr "press") (.seq reWS (rePlus digitChar))

/-- `VoicemailPatterns.VOICEMAIL_PATTERNS`, each regex paired with its
source text (the source text is what the Python code records in the
signal details on a match). -/
def VOICEMAIL_PATTERNS : List (String × RE) := [
  ("leave\\s+(?:a\\s+|your\\s+)?message", reLeaveMessage),
  ("after\\s+the\\s+(?:beep|tone)", reAfterThe),
  ("at\\s+the\\s+(?:beep|tone)", reAtThe),
  ("(?:un)?able\\s+to\\s+(?:answer|take)", reAbleTo),
  ("not\\s+available", reNotAvailable),
  ("can" ++ apos ++ "?t\\s+(?:come\\s+to|take)", reCantComeTake),
  ("you" ++ apos ++ "?ve?\\s+reached", reYouveReached),
  ("voice\\s*mail", reVoiceMail),
  ("mailbox", reMailbox),
  ("out\\s+of\\s+(?:the\\s+)?office", reOutOfOffice),
  ("business\\s+hours", reBusinessHours),
  ("press\\s+\\d+", rePressDigit)]

end VoicemailPatterns

/- ### Data model -/

/-- `VoicemailSignal`: one piece of detection evidence.  `detected_at`
models the `datetime.utcnow()` timestamp as an opaque clock value. -/
structure VoicemailSignal where
  signal_type : String
  confidence : ℚ
  detected_at : ℕ
  details : Dict

/-- `VoicemailDetectionResult`: the classifier's final verdict. -/
structure VoicemailDetectionResult where
  is_voicemail : Bool
  confidence : ℚ
  signals : List VoicemailSignal
  detection_method : String
  metadata : Dict

/-- Constructor arguments of `VoicemailDetector.__init__`. -/
structure DetectorConfig where
  amd_confidence_threshold : ℚ
  keyword_confidence_threshold : ℚ
  min_signals_required : ℕ
  enable_aggressive_detection : Bool

/-- The default configuration (`0.85, 0.75, 1, False`). -/
def defaultConfig : DetectorConfig :=
  { amd_confidence_threshold := 85/100
    keyword_confidence_threshold := 75/100
    min_signals_required := 1
    enable_aggressive_detection := false }

/-- One transcript document, with the keys the classifier reads.
`none` models an absent dictionary key; the code's `.get` defaults
(`"unknown"`, `""`, `0`) are applied at each use site, as in the source. -/
structure Transcript where
  speaker : Option String
  text : Option String
  confidence : Option ℚ
  start_offset : Option ℚ
deriving DecidableEq

/-- The `detection_stats` counters held by the detector. -/
structure DetectionStats where
  total_analyzed : ℕ
  voicemail_detected : ℕ
  human_detected : ℕ
  uncertain : ℕ
  methods_amd : ℕ
  methods_keyword : ℕ
  methods_audio_pattern : ℕ
  methods_transcript_analysis : ℕ
deriving DecidableEq

/-- The counters as initialised in `__init__` (zero prior resets). -/
def initialStats : DetectionStats := ⟨0, 0, 0, 0, 0, 0, 0, 0⟩

/- ### Signal extractor 1: `_analyze_amd` -/

/-- The `details` dict built for an AMD signal. -/
def amdDetails (answered_by detection_type : String) : Dict :=
  [("answered_by", .vStr answered_by), ("detection_type", .vStr detection_type)]

/-- Confidence lookup on the lowered `answeredBy` value inside the
`"machine" in answered_by_lower` branch. -/
def amdConfidence (lower : String) : ℚ :=
  if lower = "machine_end_beep" then 98/100
  else if lower = "machine_start" then 90/100
  else if lower = "machine_end_silence" then 92/100
  else if lower = "machine_end_other" then 85/100
  else 95/100

/-- `VoicemailDetector._analyze_amd`. -/
def analyzeAmd (thr : ℚ) (answered_by : String) (now : ℕ) :
    Option VoicemailSignal :=
  if strLower answered_by = "human" then none
  else if strContains (strLower answered_by) "machine" then
    (if thr ≤ amdConfidence (strLower answered_by) then
      some ⟨"amd", amdConfidence (strLower answered_by), now,
        amdDetails answered_by (strLower answered_by)⟩
    else none)
  else if strLower answered_by = "fax" then
    some ⟨"amd", 70/100, now, amdDetails answered_by "fax"⟩
  else none

/- ### Signal extractor 2: `_analyze_transcript_keywords` -/

/-- Lowercased text of each transcript in list order (`all_text`). -/
def allTexts (ts : List Transcript) : List String :=
  ts.map (fun t => strLower (t.text.getD ""))

/-- Lowercased text of the transcripts with `start_offset ≤ 60`
(`first_60_sec`), in list order. -/
def earlyTextsOf (ts : List Transcript) : List String :=
  (ts.filter (fun t => t.start_offset.getD 0 ≤ 60)).map
    (fun t => strLower (t.text.getD ""))

/-- Literal keyword matches with their weights (2.0 in the early text,
else 1.0 in the combined text). -/
def keywordMatchList (early combined : String) : List (String × ℚ) :=
  VoicemailPatterns.VOICEMAIL_KEYWORDS.filterMap (fun kw =>
    if strContains early kw then some (kw, 2)
    else if strContains combined kw then some (kw, 1)
    else none)

/-- Regex pattern matches with their weights (early 2.0, else 1.0). -/
def patternMatchList (early combined : String) : List (String × ℚ) :=
  VoicemailPatterns.VOICEMAIL_PATTERNS.filterMap (fun p =>
    if reSearch p.2 early then some (p.1, 2)
    else if reSearch p.2 combined then some (p.1, 1)
    else none)

/-- `voicemail_matches`: keyword matches followed by pattern matches. -/
def voicemailMatches (early combined : String) : List (String × ℚ) :=
  keywordMatchList early combined ++ patternMatchList early combined

/-- `human_matches`: human indicators present in the early text. -/
def humanMatches (early : String) : List String :=
  VoicemailPatterns.HUMAN_INDICATORS.filter (fun ind => strContains early ind)

/-- The keyword extractor's `adjusted_confidence` for given early and
combined texts. -/
def keywordAdjustedConfidence (early combined : String) : ℚ :=
  pyMax 0 (pyMin (((voicemailMatches early combined).map Prod.snd).sum / 5) 1 -
    ((humanMatches early).length : ℚ) * (5/10) * (1/10))

/-- `early_text`: the joined early transcripts. -/
def earlyText (ts : List Transcript) : String := joinSpace (earlyTextsOf ts)

/-- `combined_text`: the joined full transcripts. -/
def combinedText (ts : List Transcript) : String := joinSpace (allTexts ts)

/-- `VoicemailDetector._analyze_transcript_keywords`. -/
def analyzeTranscriptKeywords (thr : ℚ) (ts : List Transcript) (now : ℕ) :
    Option VoicemailSignal :=
  if ts.isEmpty then none
  else if (voicemailMatches (earlyText ts) (combinedText ts)).isEmpty then none
  else if thr ≤ keywordAdjustedConfidence (earlyText ts) (combinedText ts) then
    some ⟨"keyword", keywordAdjustedConfidence (earlyText ts) (combinedText ts),
      now,
      [("matched_keywords",
         .vList ((voicemailMatches (earlyText ts) (combinedText ts)).map
           (fun m => .vStr m.1))),
       ("keyword_count",
         .vNum ((voicemailMatches (earlyText ts) (combinedText ts)).length : ℚ)),
       ("human_indicators",
         .vList ((humanMatches (earlyText ts)).map Val.vStr)),
       ("voicemail_score",
         .vNum ((voicemailMatches (earlyText ts) (combinedText ts)).map
           Prod.snd).sum),
       ("human_penalty",
         .vNum (((humanMatches (earlyText ts)).length : ℚ) * (5/10)))]⟩
  else none

/- ### Signal extractor 3: `_analyze_transcript_patterns` -/

/-- Speaker of each transcript (`.get("speaker", "unknown")`). -/
def speakerNames (ts : List Transcript) : List String :=
  ts.map (fun t => t.speaker.getD "unknown")

/-- `speakers.add(x)`: insert into a set, modelled as a duplicate-free
list in insertion order. -/
def addToSet (l : List String) (s : String) : List String :=
  if s ∈ l then l else l ++ [s]

/-- The distinct speakers (Python `set(...)` built by `add`). -/
def speakersOf (ts : List Transcript) : List String :=
  (speakerNames ts).foldl addToSet []

/-- `first_speaker_time`: the `start_offset` of the first transcript in
list order (`None` only when the list is empty). -/
def firstSpeakerTime (ts : List Transcript) : Option ℚ :=
  ts.head?.map (fun t => t.start_offset.getD 0)

/-- `last_speaker and last_speaker != speaker`: the previous speaker is
set, truthy (non-empty) and different from the current one. -/
def speakerChanged (last : Option String) (sp : String) : Bool :=
  match last with
  | some l => (l != "") && (l != sp)
  | none => false

/-- Fold computing `speaker_changes` over the speaker sequence. -/
def speakerChangesAux : Option String → List String → ℕ
  | _, [] => 0
  | last, sp :: rest =>
      (if speakerChanged last sp then 1 else 0) + speakerChangesAux (some sp) rest

/-- `speaker_changes`. -/
def speakerChanges (ts : List Transcript) : ℕ :=
  speakerChangesAux none (speakerNames ts)

/-- Per-transcript confidences (`.get("confidence", 0)`). -/
def confidencesOf (ts : List Transcript) : List ℚ :=
  ts.map (fun t => t.confidence.getD 0)

/-- Per-transcript start offsets (`.get("start_offset", 0)`). -/
def startTimesOf (ts : List Transcript) : List ℚ :=
  ts.map (fun t => t.start_offset.getD 0)

/-- `avg_confidence` (`0` when there are no confidences). -/
def avgConfidence (ts : List Transcript) : ℚ :=
  if (confidencesOf ts).isEmpty then 0
  else (confidencesOf ts).sum / ((confidencesOf ts).length : ℚ)

/-- `confidence_variance` (population variance around the mean). -/
def confVariance (ts : List Transcript) : ℚ :=
  ((confidencesOf ts).map (fun c => (c - avgConfidence ts) ^ 2)).sum /
    ((confidencesOf ts).length : ℚ)

/-- Python `max` over a list of rationals (the empty case is never used:
the caller guards on non-emptiness, as the source does). -/
def listMaxQ : List ℚ → ℚ
  | [] => 0
  | x :: xs => xs.foldl pyMax x

/-- `first_speaker_time is not None and first_speaker_time < 2.0`. -/
def immediateStartFires (ts : List Transcript) : Bool :=
  match firstSpeakerTime ts with
  | some q => decide (q < 2)
  | none => false

/-- `patterns_matched`: the pattern names and scores collected by
`_analyze_transcript_patterns`, in source order. -/
def patternsMatched (ts : List Transcript) : List (String × ℚ) :=
  (if (speakersOf ts).length = 1 ∧ speakerChanges ts = 0 then
    [("monologue", 3/10)] else []) ++
  (if immediateStartFires ts then
    [("immediate_start", 2/10)] else []) ++
  (if 95/100 < avgConfidence ts then [("high_confidence", 2/10)] else []) ++
  (if 1 < (confidencesOf ts).length ∧ confVariance ts < 1/100 then
    [("consistent_confidence", 15/100)] else []) ++
  (if ¬ (startTimesOf ts).isEmpty ∧ 15 ≤ listMaxQ (startTimesOf ts) ∧
      listMaxQ (startTimesOf ts) ≤ 45 then
    [("typical_duration", 15/100)] else [])

/-- `pattern_confidence`. -/
def patternConfidence (ts : List Transcript) : ℚ :=
  ((patternsMatched ts).map Prod.snd).sum

/-- `VoicemailDetector._analyze_transcript_patterns`. -/
def analyzeTranscriptPatterns (ts : List Transcript) (now : ℕ) :
    Option VoicemailSignal :=
  if ts.isEmpty ∨ ts.length < 3 then none
  else if (patternsMatched ts).isEmpty then none
  else if 4/10 ≤ patternConfidence ts then
    some ⟨"transcript_analysis", pyMin (patternConfidence ts) (95/100), now,
      [("patterns_matched",
         .vList ((patternsMatched ts).map (fun p => .vStr p.1))),
       ("speaker_count", .vNum ((speakersOf ts).length : ℚ)),
       ("speaker_changes", .vNum ((speakerChanges ts : ℕ) : ℚ)),
       ("avg_confidence", .vNum (avgConfidence ts)),
       ("duration", .vNum (if (startTimesOf ts).isEmpty then 0
         else listMaxQ (startTimesOf ts)))]⟩
  else none

/- ### Signal extractor 4: `_analyze_audio_patterns` -/

/-- `call_duration and call_duration < 60`: present, truthy (non-zero)
and below 60 seconds. -/
def shortDurationFires (call_duration : Option ℤ) : Bool :=
  match call_duration with
  | some n => (n != 0) && decide (n < 60)
  | none => false

/-- `patterns_detected` of `_analyze_audio_patterns`, in source order. -/
def audioPatternsDetected (metadata : Dict) (call_duration : Option ℤ) :
    List (String × ℚ) :=
  (if dictTruthy metadata "beep_detected" then [("beep_detected", 4/10)] else []) ++
  (if 3 < dictGetNum metadata "trailing_silence_duration" 0 then
    [("trailing_silence", 3/10)] else []) ++
  (if dictTruthy metadata "one_way_audio" then [("one_way_audio", 2/10)] else []) ++
  (if shortDurationFires call_duration then [("short_duration", 15/100)] else [])

/-- `audio_confidence`. -/
def audioConfidence (metadata : Dict) (call_duration : Option ℤ) : ℚ :=
  ((audioPatternsDetected metadata call_duration).map Prod.snd).sum

/-- `VoicemailDetector._analyze_audio_patterns`. -/
def analyzeAudioPatterns (metadata : Dict) (call_duration : Option ℤ)
    (now : ℕ) : Option VoicemailSignal :=
  if (audioPatternsDetected metadata call_duration).isEmpty then none
  else if 3/10 ≤ audioConfidence metadata call_duration then
    some ⟨"audio_pattern", pyMin (audioConfidence metadata call_duration) (9/10),
      now,
      [("patterns_detected",
         .vList ((audioPatternsDetected metadata call_duration).map
           (fun p => .vStr p.1))),
       ("beep_detected", (dictGet metadata "beep_detected").getD (.vBool false)),
       ("silence_duration",
         .vNum (dictGetNum metadata "trailing_silence_duration" 0)),
       ("call_duration", match call_duration with
         | some n => .vNum (n : ℚ)
         | none => .vNone)]⟩
  else none

/- ### Signal fusion: `_combine_signals` -/

/-- Per-type fusion weight (`signal_weights.get(type, 0.5)`). -/
def signalWeight (t : String) : ℚ :=
  if t = "amd" then 1
  else if t = "keyword" then 8/10
  else if t = "transcript_analysis" then 6/10
  else if t = "audio_pattern" then 5/10
  else 5/10

/-- `total_weight` accumulated over the signal list. -/
def totalWeight (l : List VoicemailSignal) : ℚ :=
  l.foldl (fun acc s => acc + signalWeight s.signal_type) 0

/-- `weighted_confidence` accumulated over the signal list. -/
def weightedConfidenceSum (l : List VoicemailSignal) : ℚ :=
  l.foldl (fun acc s => acc + s.confidence * signalWeight s.signal_type) 0

/-- `overall_confidence` (guarded division, `0.0` on zero weight). -/
def overallConfidence (l : List VoicemailSignal) : ℚ :=
  if 0 < totalWeight l then weightedConfidenceSum l / totalWeight l else 0

/-- Python `max(signals, key=lambda s: s.confidence)`: keeps the first
maximum on ties. -/
def maxByConfidence (best : VoicemailSignal) :
    List VoicemailSignal → VoicemailSignal
  | [] => best
  | s :: rest => maxByConfidence (if best.confidence < s.confidence then s else best) rest

/-- Aggressive decision policy. -/
def aggressiveDecision (signals : List VoicemailSignal) (overall : ℚ) : Bool :=
  decide (6/10 ≤ overall) ||
    signals.any (fun s => decide ((85/100 : ℚ) ≤ s.confidence))

/-- Conservative decision policy (the source's `if`/`elif` chain). -/
def conservativeDecision (cfg : DetectorConfig)
    (signals : List VoicemailSignal) (overall : ℚ) : Bool :=
  if 75/100 ≤ overall then true
  else if cfg.min_signals_required ≤ signals.length ∧ 6/10 ≤ overall then true
  else if signals.any
      (fun s => s.signal_type == "amd" && decide ((9/10 : ℚ) ≤ s.confidence)) then
    true
  else false

/-- `VoicemailDetector._combine_signals`. -/
def combineSignals (cfg : DetectorConfig) (call_sid : String)
    (signals : List VoicemailSignal) (metadata : Dict) :
    VoicemailDetectionResult :=
  match signals with
  | [] =>
    { is_voicemail := false
      confidence := 0
      signals := []
      detection_method := "none"
      metadata := [("call_sid", .vStr call_sid), ("reason", .vStr "no_signals")] }
  | s0 :: rest =>
    { is_voicemail :=
        if cfg.enable_aggressive_detection then
          aggressiveDecision (s0 :: rest) (overallConfidence (s0 :: rest))
        else
          conservativeDecision cfg (s0 :: rest) (overallConfidence (s0 :: rest))
      confidence := overallConfidence (s0 :: rest)
      signals := s0 :: rest
      detection_method := (maxByConfidence s0 rest).signal_type
      metadata := dictMerge
        [("call_sid", .vStr call_sid),
         ("signal_count", .vNum (((s0 :: rest).length : ℕ) : ℚ)),
         ("signal_types", .vList ((s0 :: rest).map (fun s => .vStr s.signal_type))),
         ("weighted_confidence", .vNum (overallConfidence (s0 :: rest))),
         ("primary_method", .vStr (maxByConfidence s0 rest).signal_type)]
        metadata }

/- ### `analyze_call` and the statistics tracker -/

/-- The arguments of one `analyze_call` invocation. -/
structure CallInput where
  call_sid : String
  answered_by : Option String
  transcripts : Option (List Transcript)
  call_duration : Option ℤ
  metadata : Option Dict

/-- The AMD signal of a call, behind the `if answered_by:` truthiness
gate. -/
def amdSignalOf (cfg : DetectorConfig) (inp : CallInput) (now : ℕ) :
    Option VoicemailSignal :=
  match inp.answered_by with
  | some s => if s = "" then none else analyzeAmd cfg.amd_confidence_threshold s now
  | none => none

/-- The transcripts, behind the `if transcripts:` truthiness gate. -/
def transcriptGate (inp : CallInput) : Option (List Transcript) :=
  match inp.transcripts with
  | some ts => if ts.isEmpty then none else some ts
  | none => none

/-- The keyword signal of a call. -/
def keywordSignalOf (cfg : DetectorConfig) (inp : CallInput) (now : ℕ) :
    Option VoicemailSignal :=
  match transcriptGate inp with
  | some ts => analyzeTranscriptKeywords cfg.keyword_confidence_threshold ts now
  | none => none

/-- The transcript-pattern signal of a call. -/
def transcriptSignalOf (cfg : DetectorConfig) (inp : CallInput) (now : ℕ) :
    Option VoicemailSignal :=
  match transcriptGate inp with
  | some ts => analyzeTranscriptPatterns ts now
  | none => none

/-- The audio-pattern signal of a call, behind the `if metadata:`
truthiness gate. -/
def audioSignalOf (cfg : DetectorConfig) (inp : CallInput) (now : ℕ) :
    Option VoicemailSignal :=
  match inp.metadata with
  | some md => if md.isEmpty then none else analyzeAudioPatterns md inp.call_duration now
  | none => none

/-- The `signals` list assembled by `analyze_call`, in extractor order. -/
def callSignals (cfg : DetectorConfig) (inp : CallInput) (now : ℕ) :
    List VoicemailSignal :=
  (amdSignalOf cfg inp now).toList ++ (keywordSignalOf cfg inp now).toList ++
    (transcriptSignalOf cfg inp now).toList ++ (audioSignalOf cfg inp now).toList

/-- The `VoicemailDetectionResult` returned by `analyze_call`
(`metadata or {}` is passed through to `_combine_signals`). -/
def analyzeResult (cfg : DetectorConfig) (inp : CallInput) (now : ℕ) :
    VoicemailDetectionResult :=
  combineSignals cfg inp.call_sid (callSignals cfg inp now) (inp.metadata.getD [])

/-- The statistics update performed by one `analyze_call` invocation:
`total_analyzed`, per-method usage counters, and exactly one of the three
outcome counters. -/
def stepStats (cfg : DetectorConfig) (inp : CallInput) (now : ℕ)
    (st : DetectionStats) : DetectionStats :=
  { total_analyzed := st.total_analyzed + 1
    voicemail_detected := st.voicemail_detected +
      (if (analyzeResult cfg inp now).is_voicemail then 1 else 0)
    uncertain := st.uncertain +
      (if (analyzeResult cfg inp now).is_voicemail then 0
       else if (analyzeResult cfg inp now).confidence < 3/10 then 1 else 0)
    human_detected := st.human_detected +
      (if (analyzeResult cfg inp now).is_voicemail then 0
       else if (analyzeResult cfg inp now).confidence < 3/10 then 0 else 1)
    methods_amd := st.methods_amd +
      (if (amdSignalOf cfg inp now).isSome then 1 else 0)
    methods_keyword := st.methods_keyword +
      (if (keywordSignalOf cfg inp now).isSome then 1 else 0)
    methods_transcript_analysis := st.methods_transcript_analysis +
      (if (transcriptSignalOf cfg inp now).isSome then 1 else 0)
    methods_audio_pattern := st.methods_audio_pattern +
      (if (audioSignalOf cfg inp now).isSome then 1 else 0) }

/-- `VoicemailDetector.analyze_call`: the returned result together with
the updated statistics state. -/
def analyzeCall (cfg : DetectorConfig) (inp : CallInput) (now : ℕ)
    (st : DetectionStats) : VoicemailDetectionResult × DetectionStats :=
  (analyzeResult cfg inp now, stepStats cfg inp now st)

/-- `reset_statistics`. -/
def resetStatistics (_ : DetectionStats) : DetectionStats := initialStats

/-- A sequence of `analyze_call` invocations (each with its own clock
value), tracking only the statistics state. -/
def runCalls (cfg : DetectorConfig) :
    DetectionStats → List (CallInput × ℕ) → DetectionStats
  | st, [] => st
  | st, (inp, now) :: rest => runCalls cfg (stepStats cfg inp now st) rest

/- ### Concrete inputs used by witnesses and counterexamples -/

/-- An `analyze_call` invocation with every optional argument absent. -/
def allAbsentInput : CallInput := ⟨"CA000", none, none, none, none⟩

/-- A single-utterance transcript list saying "leave a message" at
offset 0. -/
def tsC5 : List Transcript :=
  [⟨some "agent", some "leave a message", some (95/100), some 0⟩]

/-- Three utterances in non-chronological list order: the earliest
`start_offset` (0, on the second element) is below 2 seconds, but the
first element of the list starts at 10 seconds. -/
def tsC4 : List Transcript :=
  [⟨some "a", some "", some 1, some 10⟩,
   ⟨some "a", some "", some 1, some 0⟩,
   ⟨some "a", some "", some 1, some 1⟩]

/-- An utterance starting at 0 seconds. -/
def tA : Transcript := ⟨some "s", some "", some 1, some 0⟩

/-- An utterance starting at 3 seconds. -/
def tB : Transcript := ⟨some "s", some "", some 1, some 3⟩

/-- An utterance starting at 7 seconds. -/
def tC : Transcript := ⟨some "s", some "", some 1, some 7⟩

/-- A non-empty metadata bag with only `beep_detected` set. -/
def mdBeep : Dict := [("beep_detected", .vBool true)]

/-- An AMD signal of confidence 0.95. -/
def sigAmd95 : VoicemailSignal := ⟨"amd", 95/100, 0, []⟩

/-- An audio-pattern signal of confidence 0.30. -/
def sigAudio30 : VoicemailSignal := ⟨"audio_pattern", 3/10, 0, []⟩

/-- A keyword signal of confidence 0.85. -/
def sigKeyword85 : VoicemailSignal := ⟨"keyword", 85/100, 0, []⟩

/- ### Helper lemmas -/

theorem foldl_add_map {α : Type} (f : α → ℚ) (l : List α) (a : ℚ) :
    l.foldl (fun acc s => acc + f s) a = a + (l.map f).sum := by
  induction l generalizing a with
  | nil => simp
  | cons x xs ih => simp [ih, add_assoc]

theorem totalWeight_eq_sum (l : List VoicemailSignal) :
    totalWeight l = (l.map (fun s => signalWeight s.signal_type)).sum := by
  unfold totalWeight
  rw [foldl_add_map]
  simp

theorem weightedConfidenceSum_eq_sum (l : List VoicemailSignal) :
    weightedConfidenceSum l =
      (l.map (fun s => s.confidence * signalWeight s.signal_type)).sum := by
  unfold weightedConfidenceSum
  rw [foldl_add_map]
  simp

theorem half_le_signalWeight (t : String) : 1/2 ≤ signalWeight t := by
  unfold signalWeight
  split_ifs <;> norm_num

theorem totalWeight_pos (l : List VoicemailSignal) (h : l ≠ []) :
    0 < totalWeight l := by
  match l, h with
  | s :: rest, _ =>
    rw [totalWeight_eq_sum]
    simp only [List.map_cons, List.sum_cons]
    have h1 : (1:ℚ)/2 ≤ signalWeight s.signal_type := half_le_signalWeight _
    have h2 : 0 ≤ (rest.map (fun s => signalWeight s.signal_type)).sum := by
      apply List.sum_nonneg
      intro x hx
      obtain ⟨y, -, rfl⟩ := List.mem_map.mp hx
      exact le_trans (by norm_num) (half_le_signalWeight _)
    linarith

/- ### Claim theorems -/

/-- C1: whenever no extractor emits a signal (the assembled signal list
is empty), `analyze_call` returns `is_voicemail = false`,
`confidence = 0.0` and `detection_method = "none"`. -/
theorem claim_C1 (cfg : DetectorConfig) (inp : CallInput) (now : ℕ)
    (st : DetectionStats) (h : callSignals cfg inp now = []) :
    (analyzeCall cfg inp now st).1.is_voicemail = false ∧
    (analyzeCall cfg inp now st).1.confidence = 0 ∧
    (analyzeCall cfg inp now st).1.detection_method = "none" := by
  simp [analyzeCall, analyzeResult, h, combineSignals]

/-- C1 witness: the invocation with `answered_by`, `transcripts`,
`call_duration` and `metadata` all absent. -/
theorem claim_C1_witness :
    (analyzeCall defaultConfig allAbsentInput 0 initialStats).1.is_voicemail = false ∧
    (analyzeCall defaultConfig allAbsentInput 0 initialStats).1.confidence = 0 ∧
    (analyzeCall defaultConfig allAbsentInput 0 initialStats).1.detection_method = "none" :=
  claim_C1 defaultConfig allAbsentInput 0 initialStats rfl

/-- C5: under the default keyword threshold 0.75, a transcript whose
single utterance has text "leave a message" at offset 0 yields a keyword
signal; its confidence is exactly 0.8, which is at least 0.75. -/
theorem claim_C5 (now : ℕ) :
    (analyzeTranscriptKeywords defaultConfig.keyword_confidence_threshold
        tsC5 now).map (fun s => (s.signal_type, s.confidence)) =
      some ("keyword", 4/5) ∧ (75/100 : ℚ) ≤ 4/5 := by
  refine ⟨?_, by norm_num⟩
  have he : earlyText tsC5 = "leave a message" := by decide
  have hc : combinedText tsC5 = "leave a message" := by decide
  have hvm : voicemailMatches "leave a message" "leave a message" =
      [("leave a message", 2), ("leave\\s+(?:a\\s+|your\\s+)?message", 2)] := by
    decide
  have hh : humanMatches "leave a message" = [] := by decide
  have hk : keywordAdjustedConfidence "leave a message" "leave a message" = 4/5 := by
    unfold keywordAdjustedConfidence
    rw [hvm, hh]
    norm_num [pyMin, pyMax]
  unfold analyzeTranscriptKeywords
  rw [he, hc, hvm, hk]
  rw [if_neg (by decide), if_neg (by decide),
    if_pos (by norm_num [defaultConfig])]
  rfl

/-- C6: an `answeredBy` value that lowercases to "fax" always yields an
AMD signal of confidence exactly 0.70, for every threshold; a value that
lowercases to "human" never yields an AMD signal. -/
theorem claim_C6 :
    (∀ (thr : ℚ) (s : String) (now : ℕ), strLower s = "fax" →
      (analyzeAmd thr s now).map (fun g => (g.signal_type, g.confidence)) =
        some ("amd", 70/100)) ∧
    (∀ (thr : ℚ) (s : String) (now : ℕ), strLower s = "human" →
      analyzeAmd thr s now = none) := by
  constructor
  · intro thr s now h
    unfold analyzeAmd
    rw [h]
    rfl
  · intro thr s now h
    unfold analyzeAmd
    rw [h]
    rfl

/-- C6 witness: `"Fax"` with a high threshold (0.99) still produces the
0.70-confidence AMD signal; `"HUMAN"` produces none. -/
theorem claim_C6_witness :
    ((analyzeAmd (99/100) "Fax" 0).map (fun g => (g.signal_type, g.confidence)) =
      some ("amd", 70/100)) ∧ analyzeAmd (1/2) "HUMAN" 0 = none :=
  ⟨claim_C6.1 (99/100) "Fax" 0 rfl, claim_C6.2 (1/2) "HUMAN" 0 rfl⟩

/-- C2: in conservative mode, for every non-empty signal list the fused
verdict is voicemail exactly when the overall confidence reaches 0.75, or
there are at least `min_signals_required` signals and the overall
confidence reaches 0.6, or some AMD-type signal has confidence at least
0.9. -/
theorem claim_C2 (cfg : DetectorConfig) (call_sid : String) (md : Dict)
    (signals : List VoicemailSignal)
    (hmode : cfg.enable_aggressive_detection = false) (hne : signals ≠ []) :
    ((combineSignals cfg call_sid signals md).is_voicemail = true ↔
      (75/100 ≤ overallConfidence signals ∨
        (cfg.min_signals_required ≤ signals.length ∧
          6/10 ≤ overallConfidence signals) ∨
        (∃ s ∈ signals, s.signal_type = "amd" ∧ 9/10 ≤ s.confidence))) := by
  match signals, hne with
  | s0 :: rest, _ =>
    simp only [combineSignals, hmode, Bool.false_eq_true, if_false]
    unfold conservativeDecision
    split_ifs with h1 h2 h3
    · exact iff_of_true rfl (Or.inl h1)
    · exact iff_of_true rfl (Or.inr (Or.inl h2))
    · rw [List.any_eq_true] at h3
      obtain ⟨s, hs, hp⟩ := h3
      rw [Bool.and_eq_true, beq_iff_eq, decide_eq_true_eq] at hp
      exact iff_of_true rfl (Or.inr (Or.inr ⟨s, hs, hp.1, hp.2⟩))
    · refine iff_of_false (by simp) ?_
      rintro (h | h | ⟨s, hs, ht, h9⟩)
      · exact h1 h
      · exact h2 h
      · refine h3 ?_
        rw [List.any_eq_true]
        refine ⟨s, hs, ?_⟩
        rw [Bool.and_eq_true, beq_iff_eq, decide_eq_true_eq]
        exact ⟨ht, h9⟩

/-- C2 witness: a single 0.95-confidence AMD signal under the default
configuration. -/
theorem claim_C2_witness :
    ((combineSignals defaultConfig "CA2" [sigAmd95] []).is_voicemail = true ↔
      (75/100 ≤ overallConfidence [sigAmd95] ∨
        (defaultConfig.min_signals_required ≤ ([sigAmd95] : List VoicemailSignal).length ∧
          6/10 ≤ overallConfidence [sigAmd95]) ∨
        (∃ s ∈ ([sigAmd95] : List VoicemailSignal),
          s.signal_type = "amd" ∧ 9/10 ≤ s.confidence))) :=
  claim_C2 defaultConfig "CA2" [] [sigAmd95] rfl (by simp)

/-- C3: the fused overall confidence is the weighted mean of the signal
confidences with weights amd 1.0, keyword 0.8, transcript_analysis 0.6,
audio_pattern 0.5 and 0.5 for unknown types; in particular one amd signal
at 0.95 with one audio_pattern signal at 0.30 fuses to 1.1/1.5. -/
theorem claim_C3 (signals : List VoicemailSignal) (hne : signals ≠ []) :
    overallConfidence signals =
      (signals.map (fun s => s.confidence * signalWeight s.signal_type)).sum /
        (signals.map (fun s => signalWeight s.signal_type)).sum ∧
    signalWeight "amd" = 1 ∧ signalWeight "keyword" = 8/10 ∧
    signalWeight "transcript_analysis" = 6/10 ∧
    signalWeight "audio_pattern" = 5/10 ∧
    (∀ t, t ∉ (["amd", "keyword", "transcript_analysis",
        "audio_pattern"] : List String) → signalWeight t = 5/10) ∧
    overallConfidence [sigAmd95, sigAudio30] = (11/10) / (15/10) := by
  refine ⟨?_, rfl, rfl, rfl, rfl, ?_, ?_⟩
  · unfold overallConfidence
    rw [if_pos (totalWeight_pos signals hne), totalWeight_eq_sum,
      weightedConfidenceSum_eq_sum]
  · intro t ht
    simp only [List.mem_cons, List.not_mem_nil, not_or, or_false] at ht
    obtain ⟨h1, h2, h3, h4⟩ := ht
    simp [signalWeight, h1, h2, h3, h4]
  · have h1 : signalWeight "amd" = 1 := rfl
    have h2 : signalWeight "audio_pattern" = 5/10 := rfl
    unfold overallConfidence totalWeight weightedConfidenceSum
    norm_num [sigAmd95, sigAudio30, h1, h2]

/-- C3 witness: the two-signal instance named in the claim. -/
theorem claim_C3_witness :
    overallConfidence [sigAmd95, sigAudio30] =
      (([sigAmd95, sigAudio30].map
          (fun s => s.confidence * signalWeight s.signal_type)).sum /
        ([sigAmd95, sigAudio30].map (fun s => signalWeight s.signal_type)).sum) ∧
    overallConfidence [sigAmd95, sigAudio30] = (11/10) / (15/10) :=
  ⟨(claim_C3 [sigAmd95, sigAudio30] (by simp)).1,
   (claim_C3 [sigAmd95, sigAudio30] (by simp)).2.2.2.2.2.2⟩

/-- C10: with a single signal the fused confidence equals that signal's
own confidence, whatever its type; hence a lone non-AMD signal of
confidence 0.85 clears the conservative 0.75 overall-confidence branch. -/
theorem claim_C10 :
    (∀ s : VoicemailSignal, overallConfidence [s] = s.confidence) ∧
    (∀ (cfg : DetectorConfig) (call_sid : String) (md : Dict)
      (s : VoicemailSignal), cfg.enable_aggressive_detection = false →
      s.signal_type ≠ "amd" → s.confidence = 85/100 →
      (combineSignals cfg call_sid [s] md).is_voicemail = true) := by
  have hsingle : ∀ s : VoicemailSignal, overallConfidence [s] = s.confidence := by
    intro s
    have hw : (0:ℚ) < signalWeight s.signal_type :=
      lt_of_lt_of_le (by norm_num) (half_le_signalWeight _)
    unfold overallConfidence totalWeight weightedConfidenceSum
    simp only [List.foldl_cons, List.foldl_nil, zero_add]
    rw [if_pos hw]
    exact mul_div_cancel_right₀ _ (ne_of_gt hw)
  refine ⟨hsingle, ?_⟩
  intro cfg call_sid md s hmode htype hconf
  simp only [combineSignals, hmode, Bool.false_eq_true, if_false]
  unfold conservativeDecision
  rw [if_pos]
  rw [hsingle s, hconf]
  norm_num

/-- C4 counterexample: in `tsC4` the earliest `start_offset` over all
utterances is 0 (below 2 seconds), yet the "immediate_start" score is not
added, because the code reads the `start_offset` of the first utterance
in list order (10 seconds), not the minimum. -/
theorem claim_C4_counterexample :
    3 ≤ tsC4.length ∧ (∃ t ∈ tsC4, t.start_offset.getD 0 < 2) ∧
    ("immediate_start", (2:ℚ)/10) ∉ patternsMatched tsC4 := by
  refine ⟨by decide, ⟨⟨some "a", some "", some 1, some 0⟩, by decide, by decide⟩, ?_⟩
  have hne1 : ("immediate_start", (2:ℚ)/10) ≠ ("monologue", 3/10) :=
    fun h => absurd (congrArg Prod.fst h) (by decide)
  have hne3 : ("immediate_start", (2:ℚ)/10) ≠ ("high_confidence", 2/10) :=
    fun h => absurd (congrArg Prod.fst h) (by decide)
  have hne4 : ("immediate_start", (2:ℚ)/10) ≠ ("consistent_confidence", 15/100) :=
    fun h => absurd (congrArg Prod.fst h) (by decide)
  have hne5 : ("immediate_start", (2:ℚ)/10) ≠ ("typical_duration", 15/100) :=
    fun h => absurd (congrArg Prod.fst h) (by decide)
  have himm : immediateStartFires tsC4 = false := by decide
  unfold patternsMatched
  rw [himm]
  split_ifs with h1 h3 h4 h5 <;>
    simp_all [List.mem_append]

/-- C4 (amended): for every list of at least 3 utterances, the +0.20
"immediate_start" score is added iff the `start_offset` of the first
utterance in list order (missing treated as 0) is strictly below 2.0
seconds — list position, not the minimum over all utterances, decides. -/
theorem claim_C4 (t0 : Transcript) (rest : List Transcript)
    (hlen : 3 ≤ (t0 :: rest).length) :
    (("immediate_start", (2:ℚ)/10) ∈ patternsMatched (t0 :: rest) ↔
      t0.start_offset.getD 0 < 2) := by
  have hfst : immediateStartFires (t0 :: rest) =
      decide (t0.start_offset.getD 0 < 2) := rfl
  have hne1 : ("immediate_start", (2:ℚ)/10) ≠ ("monologue", 3/10) :=
    fun h => absurd (congrArg Prod.fst h) (by decide)
  have hne3 : ("immediate_start", (2:ℚ)/10) ≠ ("high_confidence", 2/10) :=
    fun h => absurd (congrArg Prod.fst h) (by decide)
  have hne4 : ("immediate_start", (2:ℚ)/10) ≠ ("consistent_confidence", 15/100) :=
    fun h => absurd (congrArg Prod.fst h) (by decide)
  have hne5 : ("immediate_start", (2:ℚ)/10) ≠ ("typical_duration", 15/100) :=
    fun h => absurd (congrArg Prod.fst h) (by decide)
  unfold patternsMatched
  rw [hfst]
  split_ifs with h1 h2 h3 h4 h5 <;>
    simp_all [List.mem_append, decide_eq_true_eq]

/-- C4 witness: three chronologically ordered utterances whose first
starts at 0 seconds. -/
theorem claim_C4_witness :
    (("immediate_start", (2:ℚ)/10) ∈ patternsMatched (tA :: [tB, tC]) ↔
      tA.start_offset.getD 0 < 2) :=
  claim_C4 tA [tB, tC] (by decide)

/-- C7 counterexample: with a non-empty metadata bag and
`call_duration = 0` (present and below 60), the "short_duration" pattern
is NOT recorded, because Python's `if call_duration and ...` treats 0 as
falsy. -/
theorem claim_C7_counterexample :
    mdBeep.isEmpty = false ∧ (some (0:ℤ)).isSome = true ∧ (0:ℤ) < 60 ∧
    ("short_duration", (15:ℚ)/100) ∉ audioPatternsDetected mdBeep (some 0) := by
  refine ⟨rfl, rfl, by decide, ?_⟩
  have h : audioPatternsDetected mdBeep (some 0) = [("beep_detected", 4/10)] := by
    unfold audioPatternsDetected
    rw [if_pos (by decide), if_neg (by decide), if_neg (by decide),
      if_neg (by decide)]
    rfl
  intro hmem
  rw [h] at hmem
  simp only [List.mem_cons, List.not_mem_nil, or_false] at hmem
  exact absurd (congrArg Prod.fst hmem) (by decide)

/-- C7 (amended): the +0.15 "short_duration" pattern is recorded iff
`call_duration` is present, non-zero (Python truthiness) and strictly
below 60; a present duration of 0, an absent duration, or a duration of
60 or more contributes nothing. -/
theorem claim_C7 (md : Dict) (d : Option ℤ) (hmd : md ≠ []) :
    (("short_duration", (15:ℚ)/100) ∈ audioPatternsDetected md d ↔
      ∃ n, d = some n ∧ n ≠ 0 ∧ n < 60) := by
  have hs : shortDurationFires d = true ↔ ∃ n, d = some n ∧ n ≠ 0 ∧ n < 60 := by
    cases d with
    | none => simp [shortDurationFires]
    | some n => simp [shortDurationFires]
  have hne1 : ("short_duration", (15:ℚ)/100) ≠ ("beep_detected", 4/10) :=
    fun h => absurd (congrArg Prod.fst h) (by decide)
  have hne2 : ("short_duration", (15:ℚ)/100) ≠ ("trailing_silence", 3/10) :=
    fun h => absurd (congrArg Prod.fst h) (by decide)
  have hne3 : ("short_duration", (15:ℚ)/100) ≠ ("one_way_audio", 2/10) :=
    fun h => absurd (congrArg Prod.fst h) (by decide)
  unfold audioPatternsDetected
  split_ifs with h1 h2 h3 h4 <;>
    simp_all [List.mem_append]

/-- C7 witness: a 30-second call with a beeping non-empty metadata bag. -/
theorem claim_C7_witness :
    (("short_duration", (15:ℚ)/100) ∈ audioPatternsDetected mdBeep (some 30) ↔
      ∃ n, (some (30:ℤ)) = some n ∧ n ≠ 0 ∧ n < 60) :=
  claim_C7 mdBeep (some 30) (List.cons_ne_nil _ _)

theorem stepStats_total (cfg : DetectorConfig) (inp : CallInput) (now : ℕ)
    (st : DetectionStats) :
    (stepStats cfg inp now st).total_analyzed = st.total_analyzed + 1 := rfl

theorem stepStats_trio (cfg : DetectorConfig) (inp : CallInput) (now : ℕ)
    (st : DetectionStats) :
    (stepStats cfg inp now st).voicemail_detected +
      (stepStats cfg inp now st).human_detected +
      (stepStats cfg inp now st).uncertain =
      st.voicemail_detected + st.human_detected + st.uncertain + 1 := by
  unfold stepStats
  dsimp only
  split_ifs <;> omega

theorem runCalls_counts (cfg : DetectorConfig) (calls : List (CallInput × ℕ)) :
    ∀ st : DetectionStats,
      (runCalls cfg st calls).total_analyzed = st.total_analyzed + calls.length ∧
      (runCalls cfg st calls).voicemail_detected +
        (runCalls cfg st calls).human_detected +
        (runCalls cfg st calls).uncertain =
        st.voicemail_detected + st.human_detected + st.uncertain + calls.length := by
  induction calls with
  | nil => intro st; simp [runCalls]
  | cons c rest ih =>
    intro st
    obtain ⟨inp, now⟩ := c
    have h := ih (stepStats cfg inp now st)
    have h1 := stepStats_total cfg inp now st
    have h2 := stepStats_trio cfg inp now st
    simp only [runCalls, List.length_cons]
    exact ⟨by omega, by omega⟩

/-- C8: starting from freshly initialised statistics, N calls leave
`total_analyzed = N` and `voicemail_detected + human_detected + uncertain
= N`; each call adds 1 to `total_analyzed` and to exactly one of the
three outcome counters — `voicemail_detected` when the result is
voicemail, else `uncertain` when its confidence is below 0.3, else
`human_detected`. -/
theorem claim_C8 :
    (∀ (cfg : DetectorConfig) (calls : List (CallInput × ℕ)),
      (runCalls cfg initialStats calls).total_analyzed = calls.length ∧
      (runCalls cfg initialStats calls).voicemail_detected +
        (runCalls cfg initialStats calls).human_detected +
        (runCalls cfg initialStats calls).uncertain = calls.length) ∧
    (∀ (cfg : DetectorConfig) (inp : CallInput) (now : ℕ) (st : DetectionStats),
      (analyzeCall cfg inp now st).2.total_analyzed = st.total_analyzed + 1 ∧
      (if (analyzeCall cfg inp now st).1.is_voicemail then
        (analyzeCall cfg inp now st).2.voicemail_detected = st.voicemail_detected + 1 ∧
        (analyzeCall cfg inp now st).2.human_detected = st.human_detected ∧
        (analyzeCall cfg inp now st).2.uncertain = st.uncertain
      else if (analyzeCall cfg inp now st).1.confidence < 3/10 then
        (analyzeCall cfg inp now st).2.uncertain = st.uncertain + 1 ∧
        (analyzeCall cfg inp now st).2.voicemail_detected = st.voicemail_detected ∧
        (analyzeCall cfg inp now st).2.human_detected = st.human_detected
      else
        (analyzeCall cfg inp now st).2.human_detected = st.human_detected + 1 ∧
        (analyzeCall cfg inp now st).2.voicemail_detected = st.voicemail_detected ∧
        (analyzeCall cfg inp now st).2.uncertain = st.uncertain)) := by
  constructor
  · intro cfg calls
    have h := runCalls_counts cfg calls initialStats
    simpa [initialStats] using h
  · intro cfg inp now st
    refine ⟨rfl, ?_⟩
    unfold analyzeCall stepStats
    dsimp only
    split_ifs with h1 h2 <;> simp_all

/- ### Timestamp invariance (towards C9) -/

/-- Replace a signal's timestamp. -/
def timeSet (now : ℕ) (s : VoicemailSignal) : VoicemailSignal :=
  { s with detected_at := now }

/-- The timestamp-independent content of a signal. -/
def eraseTime (s : VoicemailSignal) : String × ℚ × Dict :=
  (s.signal_type, s.confidence, s.details)

theorem analyzeAmd_timeSet (thr : ℚ) (s : String) (now : ℕ) :
    analyzeAmd thr s now = (analyzeAmd thr s 0).map (timeSet now) := by
  unfold analyzeAmd
  split_ifs <;> rfl

theorem analyzeTranscriptKeywords_timeSet (thr : ℚ) (ts : List Transcript)
    (now : ℕ) :
    analyzeTranscriptKeywords thr ts now =
      (analyzeTranscriptKeywords thr ts 0).map (timeSet now) := by
  unfold analyzeTranscriptKeywords
  split_ifs <;> rfl

theorem analyzeTranscriptPatterns_timeSet (ts : List Transcript) (now : ℕ) :
    analyzeTranscriptPatterns ts now =
      (analyzeTranscriptPatterns ts 0).map (timeSet now) := by
  unfold analyzeTranscriptPatterns
  split_ifs <;> rfl

theorem analyzeAudioPatterns_timeSet (md : Dict) (d : Option ℤ) (now : ℕ) :
    analyzeAudioPatterns md d now =
      (analyzeAudioPatterns md d 0).map (timeSet now) := by
  unfold analyzeAudioPatterns
  split_ifs <;> rfl

theorem amdSignalOf_timeSet (cfg : DetectorConfig) (inp : CallInput) (now : ℕ) :
    amdSignalOf cfg inp now = (amdSignalOf cfg inp 0).map (timeSet now) := by
  unfold amdSignalOf
  cases inp.answered_by with
  | none => rfl
  | some s =>
    dsimp only
    split_ifs with h
    · rfl
    · exact analyzeAmd_timeSet _ _ _

theorem keywordSignalOf_timeSet (cfg : DetectorConfig) (inp : CallInput)
    (now : ℕ) :
    keywordSignalOf cfg inp now = (keywordSignalOf cfg inp 0).map (timeSet now) := by
  unfold keywordSignalOf
  cases transcriptGate inp with
  | none => rfl
  | some ts => exact analyzeTranscriptKeywords_timeSet _ _ _

theorem transcriptSignalOf_timeSet (cfg : DetectorConfig) (inp : CallInput)
    (now : ℕ) :
    transcriptSignalOf cfg inp now =
      (transcriptSignalOf cfg inp 0).map (timeSet now) := by
  unfold transcriptSignalOf
  cases transcriptGate inp with
  | none => rfl
  | some ts => exact analyzeTranscriptPatterns_timeSet _ _

theorem audioSignalOf_timeSet (cfg : DetectorConfig) (inp : CallInput)
    (now : ℕ) :
    audioSignalOf cfg inp now = (audioSignalOf cfg inp 0).map (timeSet now) := by
  unfold audioSignalOf
  cases inp.metadata with
  | none => rfl
  | some md =>
    dsimp only
    split_ifs with h
    · rfl
    · exact analyzeAudioPatterns_timeSet _ _ _

theorem optToList_map (f : VoicemailSignal → VoicemailSignal)
    (o : Option VoicemailSignal) : (o.map f).toList = o.toList.map f := by
  cases o <;> rfl

theorem callSignals_timeSet (cfg : DetectorConfig) (inp : CallInput) (now : ℕ) :
    callSignals cfg inp now = (callSignals cfg inp 0).map (timeSet now) := by
  unfold callSignals
  rw [amdSignalOf_timeSet, keywordSignalOf_timeSet, transcriptSignalOf_timeSet,
    audioSignalOf_timeSet]
  simp only [optToList_map, List.map_append]

theorem totalWeight_map_timeSet (now : ℕ) (l : List VoicemailSignal) :
    totalWeight (l.map (timeSet now)) = totalWeight l := by
  rw [totalWeight_eq_sum, totalWeight_eq_sum, List.map_map]
  rfl

theorem weightedConfidenceSum_map_timeSet (now : ℕ) (l : List VoicemailSignal) :
    weightedConfidenceSum (l.map (timeSet now)) = weightedConfidenceSum l := by
  rw [weightedConfidenceSum_eq_sum, weightedConfidenceSum_eq_sum, List.map_map]
  rfl

theorem overallConfidence_map_timeSet (now : ℕ) (l : List VoicemailSignal) :
    overallConfidence (l.map (timeSet now)) = overallConfidence l := by
  unfold overallConfidence
  rw [totalWeight_map_timeSet, weightedConfidenceSum_map_timeSet]

theorem maxByConfidence_map_timeSet (now : ℕ) :
    ∀ (l : List VoicemailSignal) (b : VoicemailSignal),
      maxByConfidence (timeSet now b) (l.map (timeSet now)) =
        timeSet now (maxByConfidence b l)
  | [], _ => rfl
  | s :: rest, b => by
    simp only [List.map_cons, maxByConfidence]
    show maxByConfidence
        (if b.confidence < s.confidence then timeSet now s else timeSet now b)
        (rest.map (timeSet now)) = _
    have h : (if b.confidence < s.confidence then timeSet now s else timeSet now b) =
        timeSet now (if b.confidence < s.confidence then s else b) := by
      split_ifs <;> rfl
    rw [h]
    exact maxByConfidence_map_timeSet now rest _

theorem aggressiveDecision_map_timeSet (now : ℕ) (l : List VoicemailSignal)
    (q : ℚ) : aggressiveDecision (l.map (timeSet now)) q = aggressiveDecision l q := by
  unfold aggressiveDecision
  simp only [List.any_map]
  rfl

theorem conservativeDecision_map_timeSet (cfg : DetectorConfig) (now : ℕ)
    (l : List VoicemailSignal) (q : ℚ) :
    conservativeDecision cfg (l.map (timeSet now)) q =
      conservativeDecision cfg l q := by
  unfold conservativeDecision
  simp only [List.any_map, List.length_map]
  rfl

theorem combineSignals_signals (cfg : DetectorConfig) (sid : String)
    (l : List VoicemailSignal) (md : Dict) :
    (combineSignals cfg sid l md).signals = l := by
  cases l <;> rfl

theorem combineSignals_isVoicemail_timeSet (cfg : DetectorConfig) (sid : String)
    (md : Dict) (now : ℕ) (l : List VoicemailSignal) :
    (combineSignals cfg sid (l.map (timeSet now)) md).is_voicemail =
      (combineSignals cfg sid l md).is_voicemail := by
  cases l with
  | nil => rfl
  | cons s0 rest =>
    show (combineSignals cfg sid ((s0 :: rest).map (timeSet now)) md).is_voicemail = _
    rw [List.map_cons]
    simp only [combineSignals]
    rw [← List.map_cons, overallConfidence_map_timeSet,
      aggressiveDecision_map_timeSet, conservativeDecision_map_timeSet]

theorem combineSignals_confidence_timeSet (cfg : DetectorConfig) (sid : String)
    (md : Dict) (now : ℕ) (l : List VoicemailSignal) :
    (combineSignals cfg sid (l.map (timeSet now)) md).confidence =
      (combineSignals cfg sid l md).confidence := by
  cases l with
  | nil => rfl
  | cons s0 rest =>
    show (combineSignals cfg sid ((s0 :: rest).map (timeSet now)) md).confidence = _
    rw [List.map_cons]
    simp only [combineSignals]
    rw [← List.map_cons, overallConfidence_map_timeSet]

theorem combineSignals_method_timeSet (cfg : DetectorConfig) (sid : String)
    (md : Dict) (now : ℕ) (l : List VoicemailSignal) :
    (combineSignals cfg sid (l.map (timeSet now)) md).detection_method =
      (combineSignals cfg sid l md).detection_method := by
  cases l with
  | nil => rfl
  | cons s0 rest =>
    show (combineSignals cfg sid ((s0 :: rest).map (timeSet now)) md).detection_method = _
    rw [List.map_cons]
    simp only [combineSignals]
    rw [maxByConfidence_map_timeSet]
    rfl

theorem combineSignals_metadata_timeSet (cfg : DetectorConfig) (sid : String)
    (md : Dict) (now : ℕ) (l : List VoicemailSignal) :
    (combineSignals cfg sid (l.map (timeSet now)) md).metadata =
      (combineSignals cfg sid l md).metadata := by
  cases l with
  | nil => rfl
  | cons s0 rest =>
    show (combineSignals cfg sid ((s0 :: rest).map (timeSet now)) md).metadata = _
    rw [List.map_cons]
    simp only [combineSignals]
    rw [← List.map_cons, overallConfidence_map_timeSet,
      maxByConfidence_map_timeSet, List.length_map, List.map_map]
    rfl

/-- C9: `analyze_call` is deterministic up to timestamps — two
invocations with identical inputs, regardless of the statistics state and
of the clock, agree on `is_voicemail`, `confidence`, `detection_method`,
`metadata` and on the signal list stripped of `detected_at`. -/
theorem claim_C9 (cfg : DetectorConfig) (inp : CallInput) (now now' : ℕ)
    (st st' : DetectionStats) :
    (analyzeCall cfg inp now st).1.is_voicemail =
      (analyzeCall cfg inp now' st').1.is_voicemail ∧
    (analyzeCall cfg inp now st).1.confidence =
      (analyzeCall cfg inp now' st').1.confidence ∧
    (analyzeCall cfg inp now st).1.detection_method =
      (analyzeCall cfg inp now' st').1.detection_method ∧
    (analyzeCall cfg inp now st).1.metadata =
      (analyzeCall cfg inp now' st').1.metadata ∧
    (analyzeCall cfg inp now st).1.signals.map eraseTime =
      (analyzeCall cfg inp now' st').1.signals.map eraseTime := by
  have hiv : ∀ n : ℕ, (analyzeResult cfg inp n).is_voicemail =
      (analyzeResult cfg inp 0).is_voicemail := by
    intro n
    unfold analyzeResult
    rw [callSignals_timeSet cfg inp n]
    exact combineSignals_isVoicemail_timeSet _ _ _ _ _
  have hcf : ∀ n : ℕ, (analyzeResult cfg inp n).confidence =
      (analyzeResult cfg inp 0).confidence := by
    intro n
    unfold analyzeResult
    rw [callSignals_timeSet cfg inp n]
    exact combineSignals_confidence_timeSet _ _ _ _ _
  have hdm : ∀ n : ℕ, (analyzeResult cfg inp n).detection_method =
      (analyzeResult cfg inp 0).detection_method := by
    intro n
    unfold analyzeResult
    rw [callSignals_timeSet cfg inp n]
    exact combineSignals_method_timeSet _ _ _ _ _
  have hmd : ∀ n : ℕ, (analyzeResult cfg inp n).metadata =
      (analyzeResult cfg inp 0).metadata := by
    intro n
    unfold analyzeResult
    rw [callSignals_timeSet cfg inp n]
    exact combineSignals_metadata_timeSet _ _ _ _ _
  have hsg : ∀ n : ℕ, (analyzeResult cfg inp n).signals.map eraseTime =
      (analyzeResult cfg inp 0).signals.map eraseTime := by
    intro n
    unfold analyzeResult
    rw [callSignals_timeSet cfg inp n, combineSignals_signals,
      combineSignals_signals, List.map_map]
    rfl
  exact ⟨(hiv now).trans (hiv now').symm, (hcf now).trans (hcf now').symm,
    (hdm now).trans (hdm now').symm, (hmd now).trans (hmd now').symm,
    (hsg now).trans (hsg now').symm⟩

/-- C10 witness: a lone keyword-type signal of confidence 0.85. -/
theorem claim_C10_witness :
    overallConfidence [sigKeyword85] = 85/100 ∧
    (combineSignals defaultConfig "CA10" [sigKeyword85] []).is_voicemail = true := by
  constructor
  · rw [claim_C10.1 sigKeyword85]
    rfl
  · exact claim_C10.2 defaultConfig "CA10" [] sigKeyword85 rfl (by decide) rfl

end VoicemailDetection
